import Mathlib

/-!
# Verification of `telebot/states/asyncio/context.py` (`StateContext`)

Shallow embedding of the `StateContext` class: a thin facade that resolves an
addressing tuple from an incoming message-or-callback event and delegates every
operation to the external bot/storage collaborator.

External calls are reified as an explicit `ExtCall` datatype; each method body
is a small effect program (`Prog`) whose run against an oracle yields the list
of external calls made (the trace) and the returned/raised outcome, so that
forwarding, error-propagation and call-count properties can be stated.
-/

namespace Telebot

/-- A dynamically-typed Python value as it crosses the external interface:
results of the storage calls and keyword-argument payloads of `add_data`. -/
inductive Val where
  | vbool : Bool → Val
  | vstr : String → Val
  | vint : Int → Val
  | vnone : Val
  | vobj : Nat → Val
deriving DecidableEq, Repr

/-- An exception raised by an external storage call (Python exceptions are
opaque to `StateContext`, which never inspects them). -/
structure Err where
  code : Int
  msg : String
deriving DecidableEq, Repr

/-- Modelled from the spec: the `State` class (`telebot.states`, not under
`src/`) is "a named label associated with a specific user/chat context"; the
code under `src/` only reads its `name` attribute (context.py line 48). -/
structure State where
  name : String
deriving DecidableEq, Repr

/-- The `Union[State, str]` argument accepted by `StateContext.set`. -/
inductive StateArg where
  | state : State → StateArg
  | str : String → StateArg
deriving DecidableEq, Repr

/-- The normalization performed by `StateContext.set` (context.py lines 47-48):
`if isinstance(state, State): state = state.name`. -/
def StateArg.resolveName : StateArg → String
  | .state s => s.name
  | .str s => s

/-- Modelled from the spec: the incoming `Union[Message, CallbackQuery]` event.
The spec says the addressing context "(chat id, user id, optional
business-connection id, bot id, message-thread id)" is resolved "from an
incoming message or callback event"; only those four event-borne fields are
relevant here (the bot id comes from the bot). -/
inductive Event where
  | message : Int → Int → Option String → Option Int → Event
  | callback_query : Int → Int → Option String → Option Int → Event
deriving DecidableEq, Repr

/-- Chat id carried by the event. -/
def Event.chat_id : Event → Int
  | .message c _ _ _ => c
  | .callback_query c _ _ _ => c

/-- User id carried by the event. -/
def Event.user_id : Event → Int
  | .message _ u _ _ => u
  | .callback_query _ u _ _ => u

/-- Optional business-connection id carried by the event. -/
def Event.business_connection_id : Event → Option String
  | .message _ _ b _ => b
  | .callback_query _ _ b _ => b

/-- Optional message-thread id carried by the event. -/
def Event.message_thread_id : Event → Option Int
  | .message _ _ _ t => t
  | .callback_query _ _ _ t => t

/-- The five-component addressing tuple, in the order in which every method of
`StateContext` destructures the result of `resolve_context` (context.py lines
44-46): chat id, user id, business-connection id, bot id, message-thread id. -/
structure ResolvedContext where
  chat_id : Int
  user_id : Int
  business_connection_id : Option String
  bot_id : Int
  message_thread_id : Option Int
deriving DecidableEq, Repr

/-- Modelled from the spec: `resolve_context` (`telebot.states`, not under
`src/`) "resolves addressing context (chat id, user id, optional
business-connection id, bot id, message-thread id) from an incoming message or
callback event"; the bot id is the second argument supplied at every call site
(`resolve_context(self.message, self.bot.bot_id)`). -/
def resolve_context (message : Event) (bot_id : Int) : ResolvedContext :=
  { chat_id := message.chat_id
    user_id := message.user_id
    business_connection_id := message.business_connection_id
    bot_id := bot_id
    message_thread_id := message.message_thread_id }

/-- One call to the external bot/storage collaborator, with the exact keyword
arguments the source passes (context.py lines 49-56, 69-75, 88-94, 105-111,
127-133, 146-153). -/
inductive ExtCall where
  | set_state (chat_id : Int) (user_id : Int) (state : String)
      (business_connection_id : Option String) (bot_id : Int)
      (message_thread_id : Option Int)
  | get_state (chat_id : Int) (user_id : Int)
      (business_connection_id : Option String) (bot_id : Int)
      (message_thread_id : Option Int)
  | delete_state (chat_id : Int) (user_id : Int)
      (business_connection_id : Option String) (bot_id : Int)
      (message_thread_id : Option Int)
  | reset_data (chat_id : Int) (user_id : Int)
      (business_connection_id : Option String) (bot_id : Int)
      (message_thread_id : Option Int)
  | retrieve_data (chat_id : Int) (user_id : Int)
      (business_connection_id : Option String) (bot_id : Int)
      (message_thread_id : Option Int)
  | add_data (chat_id : Int) (user_id : Int)
      (business_connection_id : Option String) (bot_id : Int)
      (message_thread_id : Option Int) (kwargs : List (String × Val))
deriving DecidableEq, Repr

/-- The name of the external storage operation an `ExtCall` invokes. -/
inductive OpName where
  | set_state
  | get_state
  | delete_state
  | reset_data
  | retrieve_data
  | add_data
deriving DecidableEq, Repr

/-- Which external operation a call invokes. -/
def ExtCall.op : ExtCall → OpName
  | .set_state _ _ _ _ _ _ => .set_state
  | .get_state _ _ _ _ _ => .get_state
  | .delete_state _ _ _ _ _ => .delete_state
  | .reset_data _ _ _ _ _ => .reset_data
  | .retrieve_data _ _ _ _ _ => .retrieve_data
  | .add_data _ _ _ _ _ _ => .add_data

/-- The addressing tuple carried by a call: the values passed as the
`chat_id`, `user_id`, `business_connection_id`, `bot_id` and
`message_thread_id` keyword arguments. -/
def ExtCall.addr : ExtCall → ResolvedContext
  | .set_state c u _ b i t => ⟨c, u, b, i, t⟩
  | .get_state c u b i t => ⟨c, u, b, i, t⟩
  | .delete_state c u b i t => ⟨c, u, b, i, t⟩
  | .reset_data c u b i t => ⟨c, u, b, i, t⟩
  | .retrieve_data c u b i t => ⟨c, u, b, i, t⟩
  | .add_data c u b i t _ => ⟨c, u, b, i, t⟩

/-- A method body as an effect program over the external interface:
`pure` returns a value; `awaitCall c k` is `await self.bot.<op>(...)`;
`syncCall c k` is a call expression without `await` (only `data` does this,
context.py line 127). -/
inductive Prog (α : Type) where
  | pure : α → Prog α
  | awaitCall : ExtCall → (Val → Prog α) → Prog α
  | syncCall : ExtCall → (Val → Prog α) → Prog α

/-- An oracle standing for the external bot/storage collaborator: each call
either returns a value or raises an exception. -/
def Oracle : Type := ExtCall → Except Err Val

/-- Run a program against an oracle: the list of external calls actually made,
and the outcome (a raised exception stops execution and propagates). -/
def Prog.run {α : Type} : Prog α → Oracle → List ExtCall × Except Err α
  | .pure a, _ => ([], Except.ok a)
  | .awaitCall c k, h =>
      match h c with
      | .ok v =>
          let p := (k v).run h
          (c :: p.1, p.2)
      | .error e => ([c], Except.error e)
  | .syncCall c k, h =>
      match h c with
      | .ok v =>
          let p := (k v).run h
          (c :: p.1, p.2)
      | .error e => ([c], Except.error e)

/-- The trace of external calls a program makes under an oracle. -/
def Prog.trace {α : Type} (p : Prog α) (h : Oracle) : List ExtCall :=
  (p.run h).1

/-- The outcome of a program under an oracle. -/
def Prog.result {α : Type} (p : Prog α) (h : Oracle) : Except Err α :=
  (p.run h).2

/-- Whether the program's first step is an awaited external call. -/
def Prog.isAwaitedCall {α : Type} : Prog α → Bool
  | .awaitCall _ _ => true
  | _ => false

/-- Whether the program's first step is a non-awaited external call. -/
def Prog.isUnawaitedCall {α : Type} : Prog α → Bool
  | .syncCall _ _ => true
  | _ => false

/-- The `AsyncTeleBot` collaborator as `StateContext` sees it: a `bot_id`
attribute and the external storage operations, abstracted as an oracle. -/
structure Bot where
  bot_id : Int
  handle : Oracle

/-- The `StateContext` object: `__init__` stores the event, the bot and a
snapshot of the bot's `bot_id` (context.py lines 24-27). The `bot_id` field
may later differ from `bot.bot_id` if the bot object is mutated. -/
structure StateContext where
  message : Event
  bot : Bot
  bot_id : Int

/-- `StateContext.__init__(message, bot)`: caches `self.bot.bot_id`
(context.py line 27). -/
def StateContext.make (message : Event) (bot : Bot) : StateContext :=
  { message := message, bot := bot, bot_id := bot.bot_id }

/-- Mutation of the shared bot object's `bot_id` attribute after construction,
as seen through the context's `self.bot` alias: the cached `self.bot_id`
snapshot is unaffected. -/
def StateContext.withBotId (ctx : StateContext) (id : Int) : StateContext :=
  { message := ctx.message
    bot := { bot_id := id, handle := ctx.bot.handle }
    bot_id := ctx.bot_id }

/-- The observable outcome of invoking one method: whether the source declares
it `async def`, the effect program of its body, and the state of `self` when
the body finishes (no method assigns to `self`, so it is `self` unchanged). -/
structure MethodRes (α : Type) where
  is_async : Bool
  body : Prog α
  post_self : StateContext

/-- `async def set(self, state)` (context.py lines 29-56): resolves the
context, normalizes a `State` argument to its `name`, then
`return await self.bot.set_state(chat_id=..., user_id=..., state=state,
business_connection_id=..., bot_id=..., message_thread_id=...)`. -/
def StateContext.set (self : StateContext) (state : StateArg) : MethodRes Val :=
  let r := resolve_context self.message self.bot.bot_id
  let state := state.resolveName
  { is_async := true
    body := .awaitCall
      (.set_state r.chat_id r.user_id state r.business_connection_id r.bot_id
        r.message_thread_id) .pure
    post_self := self }

/-- `async def get(self)` (context.py lines 58-75): resolves the context, then
`return await self.bot.get_state(...)`. -/
def StateContext.get (self : StateContext) : MethodRes Val :=
  let r := resolve_context self.message self.bot.bot_id
  { is_async := true
    body := .awaitCall
      (.get_state r.chat_id r.user_id r.business_connection_id r.bot_id
        r.message_thread_id) .pure
    post_self := self }

/-- `async def delete(self)` (context.py lines 77-94): resolves the context,
then `return await self.bot.delete_state(...)`. -/
def StateContext.delete (self : StateContext) : MethodRes Val :=
  let r := resolve_context self.message self.bot.bot_id
  { is_async := true
    body := .awaitCall
      (.delete_state r.chat_id r.user_id r.business_connection_id r.bot_id
        r.message_thread_id) .pure
    post_self := self }

/-- `async def reset_data(self)` (context.py lines 96-111): resolves the
context, then `return await self.bot.reset_data(...)`. -/
def StateContext.reset_data (self : StateContext) : MethodRes Val :=
  let r := resolve_context self.message self.bot.bot_id
  { is_async := true
    body := .awaitCall
      (.reset_data r.chat_id r.user_id r.business_connection_id r.bot_id
        r.message_thread_id) .pure
    post_self := self }

/-- `def data(self)` (context.py lines 113-133): a plain (non-`async`) method;
resolves the context, then `return self.bot.retrieve_data(...)` without
`await`. -/
def StateContext.data (self : StateContext) : MethodRes Val :=
  let r := resolve_context self.message self.bot.bot_id
  { is_async := false
    body := .syncCall
      (.retrieve_data r.chat_id r.user_id r.business_connection_id r.bot_id
        r.message_thread_id) .pure
    post_self := self }

/-- `async def add_data(self, **kwargs)` (context.py lines 135-153): resolves
the context, then `return await self.bot.add_data(..., **kwargs)`. -/
def StateContext.add_data (self : StateContext) (kwargs : List (String × Val)) :
    MethodRes Val :=
  let r := resolve_context self.message self.bot.bot_id
  { is_async := true
    body := .awaitCall
      (.add_data r.chat_id r.user_id r.business_connection_id r.bot_id
        r.message_thread_id kwargs) .pure
    post_self := self }

/-- The six public operations of `StateContext`. -/
inductive MethodName where
  | mset
  | mget
  | mdelete
  | mreset_data
  | mdata
  | madd_data
deriving DecidableEq, Repr

/-- Uniform dispatcher over the six public operations (`st` and `kw` are the
arguments consumed by `set` and `add_data` respectively; the other methods take
no arguments). -/
def StateContext.invoke (ctx : StateContext) (st : StateArg)
    (kw : List (String × Val)) : MethodName → MethodRes Val
  | .mset => ctx.set st
  | .mget => ctx.get
  | .mdelete => ctx.delete
  | .mreset_data => ctx.reset_data
  | .mdata => ctx.data
  | .madd_data => ctx.add_data kw

/-- The external storage operation each public method delegates to. -/
def MethodName.op : MethodName → OpName
  | .mset => .set_state
  | .mget => .get_state
  | .mdelete => .delete_state
  | .mreset_data => .reset_data
  | .mdata => .retrieve_data
  | .madd_data => .add_data

/-- All six public operations. -/
def allMethodNames : List MethodName :=
  [.mset, .mget, .mdelete, .mreset_data, .mdata, .madd_data]

/-- A fixed benign oracle, used to sample call traces concretely. -/
def okNone : Oracle := fun _ => Except.ok Val.vnone

/-- The external operation names invoked across all six public methods of a
context, sampled under the benign oracle. -/
def consumedOps (ctx : StateContext) (st : StateArg)
    (kw : List (String × Val)) : List OpName :=
  (allMethodNames.map fun n => ((ctx.invoke st kw n).body.trace okNone).map
    ExtCall.op).flatten

/-- The value passed as the `state` keyword argument, when the method's first
step calls `set_state`. -/
def MethodRes.forwardedState (m : MethodRes Val) : Option String :=
  match m.body with
  | .awaitCall (.set_state _ _ s _ _ _) _ => some s
  | _ => none

/-- The keyword arguments forwarded, when the method's first step calls
`add_data`. -/
def MethodRes.forwardedKwargs (m : MethodRes Val) : Option (List (String × Val)) :=
  match m.body with
  | .awaitCall (.add_data _ _ _ _ _ kw) _ => some kw
  | _ => none

/-- The spec's reading of `set` (claim C4), following the spec words: each
method "forwards its own arguments to the corresponding external storage call
unchanged, applying no transformation, branching or algorithm of its own". A
delegation that forwards its argument unchanged cannot identify two distinct
arguments, so the method must be injective in its argument. -/
def setForwardsArgumentUnchanged : Prop :=
  ∀ (ctx : StateContext) (a b : StateArg), ctx.set a = ctx.set b → a = b

/-- A concrete incoming message event. -/
def sampleEvent : Event := .message 10 20 (some "bc") (some 3)

/-- A concrete bot whose storage calls all succeed with `None`. -/
def sampleBot : Bot := { bot_id := 7, handle := okNone }

/-- A concrete context as `__init__` builds it. -/
def sampleCtx : StateContext := StateContext.make sampleEvent sampleBot

/-- A concrete bot with the same `bot_id` as `sampleBot` but whose storage
calls all raise. -/
def sampleBot2 : Bot :=
  { bot_id := 7, handle := fun _ => Except.error ⟨1, "storage down"⟩ }

/-- A concrete context sharing `sampleCtx`'s message and bot id but holding a
different bot object and a stale cached `bot_id` snapshot. -/
def sampleCtx2 : StateContext :=
  { message := sampleEvent, bot := sampleBot2, bot_id := 99 }

/-- Running a body that awaits a single external call and returns its value:
the trace is exactly that call and the outcome is the oracle's answer. -/
theorem run_awaitCall_pure (c : ExtCall) (h : Oracle) :
    (Prog.awaitCall c Prog.pure).run h = ([c], h c) := by
  cases hc : h c <;> simp [Prog.run, hc]

/-- Running a body that makes a single non-awaited external call and returns
its value: the trace is exactly that call and the outcome is the oracle's
answer. -/
theorem run_syncCall_pure (c : ExtCall) (h : Oracle) :
    (Prog.syncCall c Prog.pure).run h = ([c], h c) := by
  cases hc : h c <;> simp [Prog.run, hc]

/-- Every public operation makes exactly one external call, whose outcome is
the method's outcome, whose addressing tuple is the resolved context, and
whose operation matches the method. -/
theorem invoke_run (ctx : StateContext) (st : StateArg)
    (kw : List (String × Val)) (h : Oracle) (n : MethodName) :
    ∃ c : ExtCall, (ctx.invoke st kw n).body.run h = ([c], h c) ∧
      ExtCall.addr c = resolve_context ctx.message ctx.bot.bot_id ∧
      ExtCall.op c = n.op := by
  cases n
  case mset => exact ⟨_, run_awaitCall_pure _ _, rfl, rfl⟩
  case mget => exact ⟨_, run_awaitCall_pure _ _, rfl, rfl⟩
  case mdelete => exact ⟨_, run_awaitCall_pure _ _, rfl, rfl⟩
  case mreset_data => exact ⟨_, run_awaitCall_pure _ _, rfl, rfl⟩
  case mdata => exact ⟨_, run_syncCall_pure _ _, rfl, rfl⟩
  case madd_data => exact ⟨_, run_awaitCall_pure _ _, rfl, rfl⟩

/-- C1: every public operation of a `StateContext` computes
`resolve_context(message, bot.bot_id)` and forwards exactly that tuple's five
components as the `chat_id`, `user_id`, `business_connection_id`, `bot_id` and
`message_thread_id` arguments of its single external storage call, with no
component altered, reordered or omitted. -/
theorem C1_forwards_resolved_tuple (ctx : StateContext) (st : StateArg)
    (kw : List (String × Val)) (h : Oracle) (n : MethodName) :
    ((ctx.invoke st kw n).body.trace h).map ExtCall.addr =
      [resolve_context ctx.message ctx.bot.bot_id] := by
  obtain ⟨c, hrun, haddr, -⟩ := invoke_run ctx st kw h n
  simp [Prog.trace, hrun, haddr]

/-- C2 counterexample: `data` is not an asynchronous operation. At the
concrete context `sampleCtx`, `data` is declared without `async` (and its body
does not await its external call), refuting the claim that every one of the
six operations is asynchronous and awaits the corresponding storage call. -/
theorem C2_counterexample :
    ¬ ∀ (ctx : StateContext) (st : StateArg) (kw : List (String × Val))
        (n : MethodName), (ctx.invoke st kw n).is_async = true ∧
          (ctx.invoke st kw n).body.isAwaitedCall = true := by
  intro hall
  have h1 := (hall sampleCtx (.str "s") [] .mdata).1
  simp [StateContext.invoke, StateContext.data] at h1

/-- C2 (amended): `set`, `get`, `delete`, `reset_data` and `add_data` are
asynchronous operations whose bodies await their single external storage
call; `data` is a synchronous method whose body calls the store without
awaiting; every body is one external call followed by returning its outcome,
with no concurrency coordination of its own. -/
theorem C2_async_passthrough (ctx : StateContext) (st : StateArg)
    (kw : List (String × Val)) :
    (ctx.set st).is_async = true ∧ (ctx.set st).body.isAwaitedCall = true ∧
    ctx.get.is_async = true ∧ ctx.get.body.isAwaitedCall = true ∧
    ctx.delete.is_async = true ∧ ctx.delete.body.isAwaitedCall = true ∧
    ctx.reset_data.is_async = true ∧
    ctx.reset_data.body.isAwaitedCall = true ∧
    (ctx.add_data kw).is_async = true ∧
    (ctx.add_data kw).body.isAwaitedCall = true ∧
    ctx.data.is_async = false ∧ ctx.data.body.isUnawaitedCall = true ∧
    (∀ (n : MethodName) (h : Oracle),
      ∃ c : ExtCall, (ctx.invoke st kw n).body.run h = ([c], h c)) := by
  refine ⟨rfl, rfl, rfl, rfl, rfl, rfl, rfl, rfl, rfl, rfl, rfl, rfl, ?_⟩
  intro n h
  obtain ⟨c, hrun, -, -⟩ := invoke_run ctx st kw h n
  exact ⟨c, hrun⟩

/-- C3 counterexample: at the concrete context `sampleCtx` with state argument
`"s"` and empty kwargs, the six public operations collectively invoke six
distinct external storage operations, not five as the claim states. -/
theorem C3_counterexample :
    (consumedOps sampleCtx (.str "s") []).dedup.length = 6 ∧
      (consumedOps sampleCtx (.str "s") []).dedup.length ≠ 5 := by
  constructor <;> decide

/-- C3 (amended): `StateContext` consumes exactly six operations from the
external bot/storage collaborator — set-state, get-state, delete-state,
reset-data, retrieve-data, add-data — and every public operation results in a
direct call to exactly one of them, keyed by the resolved addressing tuple. -/
theorem C3_six_external_ops (ctx : StateContext) (st : StateArg)
    (kw : List (String × Val)) (h : Oracle) :
    (∀ n : MethodName, ∃ c : ExtCall,
      (ctx.invoke st kw n).body.run h = ([c], h c) ∧
        ExtCall.op c = n.op ∧
        ExtCall.addr c = resolve_context ctx.message ctx.bot.bot_id) ∧
    (allMethodNames.map MethodName.op).dedup.length = 6 := by
  refine ⟨?_, by decide⟩
  intro n
  obtain ⟨c, hrun, haddr, hop⟩ := invoke_run ctx st kw h n
  exact ⟨c, hrun, hop, haddr⟩

/-- C4 counterexample: `set` does not forward its argument unchanged. At the
concrete context `sampleCtx`, the two distinct arguments `State "name1"` and
the plain string `"name1"` produce identical delegated calls — the `State`
argument is transformed (replaced by its `name`) before delegation — so the
spec's reading of `set` as an unchanged-argument forwarder is false. -/
theorem C4_counterexample :
    sampleCtx.set (.state ⟨"name1"⟩) = sampleCtx.set (.str "name1") ∧
      (StateArg.state ⟨"name1"⟩ : StateArg) ≠ StateArg.str "name1" ∧
      ¬ setForwardsArgumentUnchanged := by
  refine ⟨rfl, by decide, ?_⟩
  intro hinj
  exact absurd (hinj sampleCtx (.state ⟨"name1"⟩) (.str "name1") rfl) (by decide)

/-- C4 (amended): every public method is pure delegation — beyond resolving
the addressing tuple and, in `set`, normalizing a `State` argument to its
`name` string, each method forwards its arguments to the external storage
call unchanged (`add_data` forwards its kwargs as given), performs no other
branching, and returns exactly what the external call returns. -/
theorem C4_delegation_with_normalization (ctx : StateContext) (st : StateArg)
    (kw : List (String × Val)) (h : Oracle) :
    (ctx.set st).forwardedState = some st.resolveName ∧
    (ctx.add_data kw).forwardedKwargs = some kw ∧
    (∀ n : MethodName, ∃ c : ExtCall,
      (ctx.invoke st kw n).body.run h = ([c], h c) ∧
        ExtCall.addr c = resolve_context ctx.message ctx.bot.bot_id) := by
  refine ⟨rfl, rfl, ?_⟩
  intro n
  obtain ⟨c, hrun, haddr, -⟩ := invoke_run ctx st kw h n
  exact ⟨c, hrun, haddr⟩

/-- C5: for every public operation, exactly one call is made to the bot's
external store and that call's outcome is the method's outcome: a raised
error propagates unchanged to the caller with no additional storage call, and
a returned value is returned unchanged. -/
theorem C5_outcome_passthrough (ctx : StateContext) (st : StateArg)
    (kw : List (String × Val)) (n : MethodName) :
    ∃ c : ExtCall, (ctx.invoke st kw n).body.run ctx.bot.handle =
      ([c], ctx.bot.handle c) := by
  obtain ⟨c, hrun, -, -⟩ := invoke_run ctx st kw ctx.bot.handle n
  exact ⟨c, hrun⟩

/-- C6: the lookup key forwarded by every operation is an addressing tuple of
exactly five components in the fixed order chat id, user id,
business-connection id, bot id, message-thread id, where business-connection
id and message-thread id are optional values while chat id, user id and bot
id are always supplied. -/
theorem C6_addressing_tuple_shape (ctx : StateContext) (st : StateArg)
    (kw : List (String × Val)) (h : Oracle) (n : MethodName) :
    ((ctx.invoke st kw n).body.trace h).map ExtCall.addr =
      [{ chat_id := ctx.message.chat_id
         user_id := ctx.message.user_id
         business_connection_id := ctx.message.business_connection_id
         bot_id := ctx.bot.bot_id
         message_thread_id := ctx.message.message_thread_id }] := by
  obtain ⟨c, hrun, haddr, -⟩ := invoke_run ctx st kw h n
  simp [Prog.trace, hrun, haddr, resolve_context]

/-- C7: addressing is deterministic across operations and calls: any two
invocations of any operations on contexts holding equal messages and bots
with equal `bot_id` forward equal addressing tuples, regardless of which
operation is invoked, its arguments, the store's behaviour, the cached
`bot_id` snapshot, or which operations were previously performed. -/
theorem C7_addressing_deterministic (ctx1 ctx2 : StateContext)
    (st1 st2 : StateArg) (kw1 kw2 : List (String × Val)) (h1 h2 : Oracle)
    (n1 n2 : MethodName) (hm : ctx1.message = ctx2.message)
    (hb : ctx1.bot.bot_id = ctx2.bot.bot_id) :
    ((ctx1.invoke st1 kw1 n1).body.trace h1).map ExtCall.addr =
      ((ctx2.invoke st2 kw2 n2).body.trace h2).map ExtCall.addr := by
  obtain ⟨c1, hr1, ha1, -⟩ := invoke_run ctx1 st1 kw1 h1 n1
  obtain ⟨c2, hr2, ha2, -⟩ := invoke_run ctx2 st2 kw2 h2 n2
  simp [Prog.trace, hr1, hr2, ha1, ha2, hm, hb]

/-- C7 witness: two concrete contexts sharing the message and the bot id but
differing in store behaviour, cached snapshot, operation and arguments
forward the same addressing tuple. -/
theorem C7_addressing_deterministic_witness :
    sampleCtx.message = sampleCtx2.message ∧
    sampleCtx.bot.bot_id = sampleCtx2.bot.bot_id ∧
    ((sampleCtx.invoke (.str "a") [] .mset).body.trace okNone).map
        ExtCall.addr =
      ((sampleCtx2.invoke (.str "b") [("k", .vint 1)] .mdata).body.trace
        sampleBot2.handle).map ExtCall.addr :=
  ⟨rfl, rfl,
    C7_addressing_deterministic sampleCtx sampleCtx2 (.str "a") (.str "b")
      [] [("k", .vint 1)] okNone sampleBot2.handle .mset .mdata rfl rfl⟩

/-- C8: `set` normalizes its argument before delegating: a `State` argument
forwards that object's `name` attribute, a plain string forwards unchanged;
in both cases the method makes a single `set_state` call and returns exactly
what that external call returns. -/
theorem C8_set_normalizes_state (ctx : StateContext) (s : State)
    (str : String) :
    (ctx.set (.state s)).forwardedState = some s.name ∧
    (ctx.set (.str str)).forwardedState = some str ∧
    (∀ st : StateArg, ∃ c : ExtCall, ExtCall.op c = OpName.set_state ∧
      (ctx.set st).body.run ctx.bot.handle = ([c], ctx.bot.handle c)) := by
  refine ⟨rfl, rfl, ?_⟩
  intro st
  obtain ⟨c, hrun, -, hop⟩ := invoke_run ctx st [] ctx.bot.handle .mset
  exact ⟨c, hop, hrun⟩

/-- C9: the `bot_id` cached on the context at construction time is never read
by any operation: a context built by `__init__` and then subjected to a
mutation of the shared bot's `bot_id` keeps the old snapshot but forwards the
bot's current `bot_id`, and method bodies are identical for any two values of
the cached field. -/
theorem C9_cached_bot_id_unused (m : Event) (b : Bot)
    (newId cached1 cached2 : Int) (st : StateArg) (kw : List (String × Val))
    (h : Oracle) (n : MethodName) :
    ((StateContext.make m b).withBotId newId).bot_id = b.bot_id ∧
    ((((StateContext.make m b).withBotId newId).invoke st kw n).body.trace
        h).map (fun c => (ExtCall.addr c).bot_id) = [newId] ∧
    (StateContext.invoke ⟨m, b, cached1⟩ st kw n).body =
      (StateContext.invoke ⟨m, b, cached2⟩ st kw n).body := by
  refine ⟨rfl, ?_, ?_⟩
  · obtain ⟨c, hrun, haddr, -⟩ :=
      invoke_run ((StateContext.make m b).withBotId newId) st kw h n
    simp only [Prog.trace, hrun]
    simp [haddr, resolve_context, StateContext.withBotId, StateContext.make]
  · cases n <;> rfl

/-- C10: no public operation mutates the context object itself: after any
call, the `message`, `bot` and `bot_id` fields of the `StateContext` hold the
same values they held before the call. -/
theorem C10_no_self_mutation (ctx : StateContext) (st : StateArg)
    (kw : List (String × Val)) (n : MethodName) :
    (ctx.invoke st kw n).post_self.message = ctx.message ∧
    (ctx.invoke st kw n).post_self.bot.bot_id = ctx.bot.bot_id ∧
    (ctx.invoke st kw n).post_self.bot.handle = ctx.bot.handle ∧
    (ctx.invoke st kw n).post_self.bot_id = ctx.bot_id := by
  cases n <;> exact ⟨rfl, rfl, rfl, rfl⟩

end Telebot
